import Mathlib

/-!
Verification of the Retail Arbitrage Scout repository.

Shallow embedding of the Python sources (`profit_calculator.py`, `config.py`,
`utils.py`, `scraper_module.py`, `api.py`) into Lean 4.  Python `float`
arithmetic is modelled over `ℚ`; Python's `round(x, 2)` is modelled by
`round2` below (round-half-up at the third decimal; Python uses
round-half-to-even, the two agree except at exact half-cent ties, which none
of the verified statements touch).  Python `None`-able parameters are
modelled by `Option`; Python truthiness of a number (`x or d`) is modelled by
`pyOrQ`.
-/

/-- Model of Python `round(x, 2)` over `ℚ`. -/
def round2 (x : ℚ) : ℚ := (round (x * 100) : ℤ) / 100

/-- Model of Python `str.lower()` (ASCII case folding suffices for the
string literals this code compares against). -/
def pyLower (s : String) : String := String.mk (s.data.map Char.toLower)

/-- Model of Python `x or d` for an optional float `x`: `None` and `0` are
falsy and give `d`, any other number is returned unchanged. -/
def pyOrQ (x : Option ℚ) (d : ℚ) : ℚ :=
  match x with
  | none => d
  | some v => if v = 0 then d else v

/-- Model of Python `a or b` where `a` is an optional float and `b` a float
(used for `fees.get('referral_fee') or fees.get('final_value_fee', 0)`). -/
def pyOrNum (a : Option ℚ) (b : ℚ) : ℚ :=
  match a with
  | none => b
  | some v => if v = 0 then b else v

/-- Python exceptions are modelled by their message. -/
abbrev PyExc := String

namespace PROFIT_CONFIG

/-- config.py: `AMAZON_FEE_PERCENT: float = 0.15`. -/
def AMAZON_FEE_PERCENT : ℚ := 0.15

/-- config.py: `EBAY_FEE_PERCENT: float = 0.13`. -/
def EBAY_FEE_PERCENT : ℚ := 0.13

/-- config.py: `PAYPAL_FEE_PERCENT: float = 0.029`. -/
def PAYPAL_FEE_PERCENT : ℚ := 0.029

/-- config.py: `PAYPAL_FEE_FIXED: float = 0.30`. -/
def PAYPAL_FEE_FIXED : ℚ := 0.30

/-- config.py: `DEFAULT_SALES_TAX: float = 0.08`. -/
def DEFAULT_SALES_TAX : ℚ := 0.08

/-- config.py: `DEFAULT_SHIPPING_COST: float = 5.00`. -/
def DEFAULT_SHIPPING_COST : ℚ := 5.00

/-- config.py: `MIN_PROFIT_AMOUNT: float = 5.00`. -/
def MIN_PROFIT_AMOUNT : ℚ := 5.00

/-- config.py: `MIN_PROFIT_MARGIN: float = 0.20`. -/
def MIN_PROFIT_MARGIN : ℚ := 0.20

end PROFIT_CONFIG

/-- config.py: module-level `CATEGORY_MARGINS` dict (referral-rate per
category); `profit_calculator.py` resolves it with `.get(category, default)`. -/
def CATEGORY_MARGINS : List (String × ℚ) :=
  [("Electronics", 0.15), ("Home & Garden", 0.15), ("Toys", 0.15),
   ("Clothing", 0.17), ("Books", 0.15), ("Other", 0.15)]

/-- profit_calculator.py line 91 reads `PROFIT_CONFIG.CATEGORY_MARGINS`, an
attribute lookup on the `ProfitConfig` instance; the dataclass (config.py
lines 78-93) declares no `CATEGORY_MARGINS` field — the dict only exists at
config.py module level — so this lookup raises `AttributeError` on every
call. -/
def PROFIT_CONFIG.CATEGORY_MARGINS_attr : Except PyExc (List (String × ℚ)) :=
  Except.error "AttributeError: ProfitConfig object has no attribute CATEGORY_MARGINS"

/-- profit_calculator.py: the `ProfitCalculator` instance state set by
`__init__` (each argument defaulted through Python `or` against
`PROFIT_CONFIG`). -/
structure ProfitCalculator where
  sales_tax_rate : ℚ
  shipping_cost : ℚ
  min_profit_amount : ℚ
  min_profit_margin : ℚ

/-- profit_calculator.py: `ProfitCalculator.__init__` — every `None` or `0`
argument is replaced by the `PROFIT_CONFIG` default via Python `or`. -/
def mkProfitCalculator (sales_tax_rate shipping_cost min_profit_amount min_profit_margin : Option ℚ) :
    ProfitCalculator where
  sales_tax_rate := pyOrQ sales_tax_rate PROFIT_CONFIG.DEFAULT_SALES_TAX
  shipping_cost := pyOrQ shipping_cost PROFIT_CONFIG.DEFAULT_SHIPPING_COST
  min_profit_amount := pyOrQ min_profit_amount PROFIT_CONFIG.MIN_PROFIT_AMOUNT
  min_profit_margin := pyOrQ min_profit_margin PROFIT_CONFIG.MIN_PROFIT_MARGIN

/-- profit_calculator.py: the dict returned by `calculate_buy_cost`. -/
structure BuyCost where
  item_price : ℚ
  sales_tax_rate : ℚ
  sales_tax_amount : ℚ
  total_buy_cost : ℚ

/-- profit_calculator.py: `ProfitCalculator.calculate_buy_cost`. -/
def ProfitCalculator.calculate_buy_cost (self : ProfitCalculator) (item_price : ℚ)
    (sales_tax_rate : Option ℚ) : BuyCost :=
  let tax_rate := pyOrQ sales_tax_rate self.sales_tax_rate
  let tax_amount := item_price * tax_rate
  { item_price := item_price
    sales_tax_rate := tax_rate
    sales_tax_amount := round2 tax_amount
    total_buy_cost := round2 (item_price + tax_amount) }

/-- profit_calculator.py: `ProfitCalculator._estimate_fba_fee`. -/
def ProfitCalculator.estimate_fba_fee (sell_price : ℚ) : ℚ :=
  if sell_price < 10 then 3.22
  else if sell_price < 20 then 4.50
  else if sell_price < 50 then 5.50
  else if sell_price < 100 then 6.50
  else 8.00

/-- profit_calculator.py: `ProfitCalculator.calculate_amazon_fees`, returned
as the Python dict (association list, insertion order). Its first statement
resolves `PROFIT_CONFIG.CATEGORY_MARGINS`, which raises `AttributeError`,
so the function raises on every call and the code below the lookup is dead;
it is kept here as the source writes it. -/
def ProfitCalculator.calculate_amazon_fees (sell_price : ℚ) (category : String) :
    Except PyExc (List (String × ℚ)) := do
  let margins ← PROFIT_CONFIG.CATEGORY_MARGINS_attr
  let referral_rate := (margins.lookup category).getD PROFIT_CONFIG.AMAZON_FEE_PERCENT
  let referral_fee := sell_price * referral_rate
  let fba_fee := ProfitCalculator.estimate_fba_fee sell_price
  let closing_fee : ℚ := if category = "Books" ∨ category = "Music" ∨ category = "DVD" then 1.80 else 0.0
  let total_fees := referral_fee + fba_fee + closing_fee
  Except.ok
    [("referral_fee", round2 referral_fee),
     ("fulfillment_fee", round2 fba_fee),
     ("closing_fee", round2 closing_fee),
     ("total_fees", round2 total_fees)]

/-- profit_calculator.py: `ProfitCalculator.calculate_ebay_fees`. -/
def ProfitCalculator.calculate_ebay_fees (sell_price : ℚ) : List (String × ℚ) :=
  let final_value_fee := sell_price * PROFIT_CONFIG.EBAY_FEE_PERCENT
  let payment_fee := sell_price * PROFIT_CONFIG.PAYPAL_FEE_PERCENT + PROFIT_CONFIG.PAYPAL_FEE_FIXED
  let insertion_fee : ℚ := 0.0
  let total_fees := final_value_fee + payment_fee + insertion_fee
  [("final_value_fee", round2 final_value_fee),
   ("payment_processing_fee", round2 payment_fee),
   ("insertion_fee", round2 insertion_fee),
   ("total_fees", round2 total_fees)]

/-- profit_calculator.py, `calculate_profit` lines 146-150: the marketplace
fee dict chosen by `marketplace.lower() == "amazon"`; on the amazon branch
the `AttributeError` from `calculate_amazon_fees` propagates (there is no
`try` in `calculate_profit`). -/
def ProfitCalculator.marketplace_fees (sell_price : ℚ) (marketplace category : String) :
    Except PyExc (List (String × ℚ)) :=
  if pyLower marketplace = "amazon" then
    ProfitCalculator.calculate_amazon_fees sell_price category
  else
    Except.ok (ProfitCalculator.calculate_ebay_fees sell_price)

/-- profit_calculator.py, `calculate_profit` line 160: the pre-rounding
`net_profit` local (`gross_revenue - total_costs`), as a function of the
already-computed marketplace fee dict. -/
def ProfitCalculator.net_profit_given_fees (self : ProfitCalculator) (buy_price sell_price : ℚ)
    (fees : List (String × ℚ)) (include_shipping : Bool) : ℚ :=
  let total_buy_cost := (self.calculate_buy_cost buy_price none).total_buy_cost
  let total_fees := (fees.lookup "total_fees").getD 0
  let shipping_cost := if include_shipping then self.shipping_cost else 0
  sell_price - (total_buy_cost + total_fees + shipping_cost)

/-- profit_calculator.py, `calculate_profit` line 163: the pre-rounding
`profit_margin` local. -/
def ProfitCalculator.profit_margin_given_fees (self : ProfitCalculator) (buy_price sell_price : ℚ)
    (fees : List (String × ℚ)) (include_shipping : Bool) : ℚ :=
  if 0 < sell_price then
    self.net_profit_given_fees buy_price sell_price fees include_shipping / sell_price * 100
  else 0

/-- profit_calculator.py, `calculate_profit` line 164: the pre-rounding
`roi_percent` local. -/
def ProfitCalculator.roi_percent_given_fees (self : ProfitCalculator) (buy_price sell_price : ℚ)
    (fees : List (String × ℚ)) (include_shipping : Bool) : ℚ :=
  let total_buy_cost := (self.calculate_buy_cost buy_price none).total_buy_cost
  if 0 < total_buy_cost then
    self.net_profit_given_fees buy_price sell_price fees include_shipping / total_buy_cost * 100
  else 0

/-- profit_calculator.py: `ProfitCalculator._calculate_opportunity_score`. -/
def ProfitCalculator.calculate_opportunity_score (net_profit profit_margin roi_percent : ℚ) : ℚ :=
  let profit_score := min (net_profit / 20) 40
  let margin_score := min (profit_margin / 2) 30
  let roi_score := min (roi_percent / 3) 30
  let total_score := profit_score + margin_score + roi_score
  min total_score 100

/-- profit_calculator.py: `ProfitCalculator._generate_recommendation`. -/
def ProfitCalculator.generate_recommendation (is_profitable : Bool)
    (net_profit profit_margin roi_percent : ℚ) : String :=
  if ¬ is_profitable then
    if net_profit < 0 then "AVOID: Negative profit potential"
    else if profit_margin < 10 then "LOW MARGIN: Insufficient profit margin"
    else "BELOW THRESHOLD: Doesn\x27t meet minimum criteria"
  else if 20 < net_profit ∧ 50 < roi_percent then "EXCELLENT: High profit and ROI opportunity"
  else if 10 < net_profit ∧ 30 < roi_percent then "GOOD: Solid profit potential"
  else if 50 < roi_percent then "PROMISING: High ROI, monitor closely"
  else "ACCEPTABLE: Meets minimum criteria"

/-- profit_calculator.py: the `ProfitAnalysis` dataclass. -/
structure ProfitAnalysis where
  buy_price : ℚ
  sales_tax_rate : ℚ
  sales_tax_amount : ℚ
  total_buy_cost : ℚ
  sell_price : ℚ
  marketplace : String
  platform_fees : ℚ
  payment_processing_fees : ℚ
  fulfillment_fees : ℚ
  total_fees : ℚ
  estimated_shipping : ℚ
  gross_revenue : ℚ
  net_profit : ℚ
  profit_margin : ℚ
  roi_percent : ℚ
  is_profitable : Bool
  opportunity_score : ℚ
  recommendation : String
  fee_breakdown : List (String × ℚ)

/-- profit_calculator.py, `calculate_profit` lines 152-202: the remainder of
the function once the marketplace fee dict has been computed without
raising. -/
def ProfitCalculator.calculate_profit_with_fees (self : ProfitCalculator)
    (buy_price sell_price : ℚ) (marketplace : String)
    (fees : List (String × ℚ)) (include_shipping : Bool) : ProfitAnalysis :=
  let buy_cost := self.calculate_buy_cost buy_price none
  let total_buy_cost := buy_cost.total_buy_cost
  let total_fees := (fees.lookup "total_fees").getD 0
  let shipping_cost := if include_shipping then self.shipping_cost else 0
  let gross_revenue := sell_price
  let net_profit := self.net_profit_given_fees buy_price sell_price fees include_shipping
  let profit_margin := self.profit_margin_given_fees buy_price sell_price fees include_shipping
  let roi_percent := self.roi_percent_given_fees buy_price sell_price fees include_shipping
  let is_profitable : Bool :=
    decide (self.min_profit_amount ≤ net_profit) && decide (self.min_profit_margin * 100 ≤ profit_margin)
  let opportunity_score := ProfitCalculator.calculate_opportunity_score net_profit profit_margin roi_percent
  let recommendation := ProfitCalculator.generate_recommendation is_profitable net_profit profit_margin roi_percent
  { buy_price := buy_price
    sales_tax_rate := buy_cost.sales_tax_rate
    sales_tax_amount := buy_cost.sales_tax_amount
    total_buy_cost := total_buy_cost
    sell_price := sell_price
    marketplace := marketplace
    platform_fees := pyOrNum (fees.lookup "referral_fee") ((fees.lookup "final_value_fee").getD 0)
    payment_processing_fees := (fees.lookup "payment_processing_fee").getD 0
    fulfillment_fees := (fees.lookup "fulfillment_fee").getD 0
    total_fees := total_fees
    estimated_shipping := shipping_cost
    gross_revenue := gross_revenue
    net_profit := round2 net_profit
    profit_margin := round2 profit_margin
    roi_percent := round2 roi_percent
    is_profitable := is_profitable
    opportunity_score := round2 opportunity_score
    recommendation := recommendation
    fee_breakdown := fees }

/-- profit_calculator.py: `ProfitCalculator.calculate_profit`; the function
has no `try`, so for marketplace "amazon" the `AttributeError` raised by
`calculate_amazon_fees` propagates and no analysis is produced. -/
def ProfitCalculator.calculate_profit (self : ProfitCalculator) (buy_price sell_price : ℚ)
    (marketplace category : String) (include_shipping : Bool) : Except PyExc ProfitAnalysis :=
  (ProfitCalculator.marketplace_fees sell_price marketplace category).map
    (fun fees => self.calculate_profit_with_fees buy_price sell_price marketplace fees include_shipping)

/-- profit_calculator.py: `ProfitCalculator.compare_marketplaces`; the
returned dict is modelled as an association list in insertion order (amazon
first, then ebay); a raise from `calculate_profit` propagates out (this
function has no `try` either). -/
def ProfitCalculator.compare_marketplaces (self : ProfitCalculator) (buy_price : ℚ)
    (amazon_price ebay_price : Option ℚ) (category : String) :
    Except PyExc (List (String × ProfitAnalysis)) := do
  let amazon_entries ← (match amazon_price with
    | some a =>
      if a ≠ 0 ∧ 0 < a then
        (self.calculate_profit buy_price a "amazon" category true).map
          (fun analysis => [("amazon", analysis)])
      else Except.ok []
    | none => Except.ok [])
  let ebay_entries ← (match ebay_price with
    | some e =>
      if e ≠ 0 ∧ 0 < e then
        (self.calculate_profit buy_price e "ebay" category true).map
          (fun analysis => [("ebay", analysis)])
      else Except.ok []
    | none => Except.ok [])
  Except.ok (amazon_entries ++ ebay_entries)

/-- Model of Python `min(xs, key=f)` on a nonempty list: the first element
with minimal key, in iteration order. -/
def pyMinBy (f : α → ℚ) : List α → Option α
  | [] => none
  | x :: xs => some (xs.foldl (fun acc y => if f y < f acc then y else acc) x)

/-- Model of Python `max(xs, key=f)` on a nonempty list: the first element
with maximal key, in iteration order. -/
def pyMaxBy (f : α → ℚ) : List α → Option α
  | [] => none
  | x :: xs => some (xs.foldl (fun acc y => if f acc < f y then y else acc) x)

/-- profit_calculator.py: `ProfitCalculator.find_best_marketplace` — a raise
from `compare_marketplaces` propagates; note the source uses
`min(comparisons.values(), key=net_profit)` in the no-profitable-candidate
branch. -/
def ProfitCalculator.find_best_marketplace (self : ProfitCalculator) (buy_price : ℚ)
    (amazon_price ebay_price : Option ℚ) (category : String) :
    Except PyExc (Option ProfitAnalysis) := do
  let comparisons ← self.compare_marketplaces buy_price amazon_price ebay_price category
  if comparisons.isEmpty then Except.ok none
  else
    let profitable := comparisons.filter (fun kv => kv.2.is_profitable)
    if profitable.isEmpty then
      Except.ok ((pyMinBy (fun kv => kv.2.net_profit) comparisons).map Prod.snd)
    else
      Except.ok ((pyMaxBy (fun kv => kv.2.net_profit) profitable).map Prod.snd)

/-- utils.py: `calculate_discount_percent` — `None` when the original price
is falsy, non-positive, or not above the current price. -/
def calculate_discount_percent (original current : ℚ) : Option ℚ :=
  if original = 0 ∨ original ≤ 0 ∨ original ≤ current then none
  else some (round2 ((original - current) / original * 100))

/-- Helper for `pyStrSplit`: accumulates the current word (reversed) while
walking the characters. -/
def pyStrSplitAux : List Char → List Char → List String
  | [], acc => if acc.isEmpty then [] else [String.mk acc.reverse]
  | c :: rest, acc =>
    if c.isWhitespace then
      if acc.isEmpty then pyStrSplitAux rest []
      else String.mk acc.reverse :: pyStrSplitAux rest []
    else pyStrSplitAux rest (c :: acc)

/-- Model of Python `str.split()` with no argument: split on runs of
whitespace, discarding empty strings. -/
def pyStrSplit (s : String) : List String := pyStrSplitAux s.data []

/-- utils.py, `fuzzy_match_products`: the word set
`set(product_name.lower().split())` of a product name. -/
def pyWordSet (s : String) : Finset String := (pyStrSplit (pyLower s)).toFinset

/-- utils.py: `fuzzy_match_products` — Jaccard similarity of the two
lowercased word sets, `0.0` when either set is empty. -/
def fuzzy_match_products (product_name1 product_name2 : String) : ℚ :=
  let words1 := pyWordSet product_name1
  let words2 := pyWordSet product_name2
  if words1 = ∅ ∨ words2 = ∅ then 0
  else ((words1 ∩ words2).card : ℚ) / ((words1 ∪ words2).card : ℚ)

/-- scraper_module.py: the `ScrapedItem` dataclass (the free-form `raw_data`
dict is omitted; no verified statement mentions it). -/
structure ScrapedItem where
  product_id : String
  product_name : String
  current_price : ℚ
  original_price : Option ℚ := none
  discount_percent : Option ℚ := none
  upc : Option String := none
  stock_status : String := "Unknown"
  product_url : Option String := none
  image_url : Option String := none
  brand : Option String := none
  category : Option String := none
  deal_type : String := "Unknown"
deriving DecidableEq

/-- Model of Python `a or b` on optional strings: `None` and `""` are falsy. -/
def pyOrStr (a b : Option String) : Option String :=
  match a with
  | some s => if s = "" then b else some s
  | none => b

/-- Predicate for Python `if not product_id` on an optional string:
`None` and the empty string are falsy. -/
def pyStrFalsy (a : Option String) : Prop := a = none ∨ a = some ""

instance (a : Option String) : Decidable (pyStrFalsy a) := by
  unfold pyStrFalsy; infer_instance

/-- scraper_module.py, `_parse_walmart_product`: the fields of the Walmart
JSON product dict that the parser reads (nested `.get` chains with their
defaults are collapsed into options). -/
structure WalmartProduct where
  id : Option String
  usItemId : Option String
  currentPrice : Option ℚ
  wasPrice : Option ℚ
  upc : Option String
  gtin : Option String
  name : Option String
  brand : Option String
  category : Option String
  imageUrl : Option String
  availableOnline : Bool

/-- scraper_module.py: `WalmartScraper._parse_walmart_product`. -/
def parse_walmart_product (product : WalmartProduct) (deal_type : String) : Option ScrapedItem :=
  let product_id := pyOrStr product.id product.usItemId
  if pyStrFalsy product_id then none
  else
    let current_price := product.currentPrice.getD 0
    let original_price := product.wasPrice.getD 0
    if current_price = 0 then none
    else
      let discount_percent : Option ℚ :=
        if original_price ≠ 0 ∧ current_price < original_price then
          some (round2 ((original_price - current_price) / original_price * 100))
        else none
      some { product_id := product_id.getD ""
             product_name := product.name.getD "Unknown Product"
             current_price := current_price
             original_price := if original_price ≠ 0 then some original_price else none
             discount_percent := discount_percent
             upc := pyOrStr product.upc product.gtin
             stock_status := if product.availableOnline then "In Stock" else "Unknown"
             product_url := some ("https://www.walmart.com/ip/" ++ product_id.getD "")
             image_url := some (product.imageUrl.getD "")
             brand := some (product.brand.getD "")
             category := some (product.category.getD "")
             deal_type := deal_type }

/-- scraper_module.py, `_parse_homedepot_product`: the fields of the Home
Depot JSON product dict that the parser reads. -/
structure HomeDepotProduct where
  productId : Option String
  itemId : Option String
  specialBuyPrice : Option ℚ
  clearancePrice : Option ℚ
  originalPrice : Option ℚ
  priceValue : Option ℚ
  upc : Option String
  gtin : Option String
  name : Option String
  brandName : Option String
  category : Option String
  imageUrls : List String
  onlineStock : Bool

/-- Model of Python `a or b` on two optional floats (`None` and `0` falsy). -/
def pyOrOptQ (a b : Option ℚ) : Option ℚ :=
  match a with
  | some v => if v = 0 then b else some v
  | none => b

/-- scraper_module.py: `HomeDepotScraper._parse_homedepot_product`. -/
def parse_homedepot_product (product : HomeDepotProduct) (deal_type : String) : Option ScrapedItem :=
  let product_id := pyOrStr product.productId product.itemId
  if pyStrFalsy product_id then none
  else
    let first_try := pyOrOptQ product.specialBuyPrice product.clearancePrice
    let current_price := pyOrQ first_try (product.priceValue.getD 0)
    if current_price = 0 then none
    else
      let discount_percent : Option ℚ :=
        match product.originalPrice with
        | some op => if op ≠ 0 ∧ current_price < op then
            some (round2 ((op - current_price) / op * 100)) else none
        | none => none
      some { product_id := product_id.getD ""
             product_name := product.name.getD "Unknown Product"
             current_price := current_price
             original_price := match product.originalPrice with
               | some op => if op ≠ 0 then some op else none
               | none => none
             discount_percent := discount_percent
             upc := pyOrStr product.upc product.gtin
             stock_status := if product.onlineStock then "In Stock" else "Unknown"
             product_url := some ("https://www.homedepot.com/p/" ++ product_id.getD "")
             image_url := some ((product.imageUrls.head?).getD "")
             brand := some (product.brandName.getD "")
             category := some (product.category.getD "")
             deal_type := deal_type }

/-- Character class `[\d,]` of the price regex. -/
def isPriceChar (c : Char) : Bool := c.isDigit || c = ','

/-- Greedy match of `([\d,]+\.?\d*)` at the start of `cs` (no backtracking is
needed because nothing follows the group in the pattern). -/
def matchPriceGroup (cs : List Char) : Option (List Char) :=
  let run1 := cs.takeWhile isPriceChar
  if run1.isEmpty then none
  else
    match cs.drop run1.length with
    | '.' :: rest2 => some (run1 ++ '.' :: rest2.takeWhile Char.isDigit)
    | _ => some run1

/-- Model of `re.search` with the pattern used by the HTML element parsers,
`\$([\d,]+\.?\d*)`: leftmost occurrence of a dollar sign followed by the
group; returns the matched group text. -/
def searchDollarPrice : List Char → Option (List Char)
  | [] => none
  | c :: rest =>
    if c = '$' then
      match matchPriceGroup rest with
      | some g => some g
      | none => searchDollarPrice rest
    else searchDollarPrice rest

/-- Numeric value of a list of decimal digit characters. -/
def digitsVal (ds : List Char) : ℕ := ds.foldl (fun n c => 10 * n + (c.toNat - 48)) 0

/-- Model of Python `float()` applied to a comma-stripped regex group
(`\d*` optionally followed by `.` and `\d*`): `float("")` and `float(".")`
raise `ValueError`, modelled as `none`. -/
def pyFloatOfGroup (cs : List Char) : Option ℚ :=
  let intPart := cs.takeWhile Char.isDigit
  match cs.drop intPart.length with
  | [] => if intPart.isEmpty then none else some (digitsVal intPart)
  | '.' :: frac =>
    let fracDigits := frac.takeWhile Char.isDigit
    if intPart.isEmpty ∧ fracDigits.isEmpty then none
    else some ((digitsVal intPart : ℚ) + (digitsVal fracDigits : ℚ) / 10 ^ fracDigits.length)
  | _ => none

/-- scraper_module.py, HTML element parsers: the price extraction
`re.search + float` step applied to the stripped text of a price element.
Outer `none` means no regex match (the code then uses price `0`);
`some none` means `float()` raised; `some (some v)` is a parsed price. -/
def extractElemPrice (txt : String) : Option (Option ℚ) :=
  match searchDollarPrice txt.trim.data with
  | none => none
  | some g => some (pyFloatOfGroup (g.filter (fun c => c ≠ ',')))

/-- scraper_module.py, `_parse_walmart_html_element`: the attributes of the
HTML element that the parser reads. -/
structure WalmartHtmlElem where
  dataItemId : Option String
  titleText : Option String
  priceText : Option String
  imgSrc : Option String

/-- scraper_module.py: `WalmartScraper._parse_walmart_html_element`; a
`float()` failure inside the `try` is caught and yields `none`. -/
def parse_walmart_html_element (elem : WalmartHtmlElem) (deal_type : String) : Option ScrapedItem :=
  if pyStrFalsy elem.dataItemId then none
  else
    let product_id := elem.dataItemId.getD ""
    let name := (elem.titleText.map String.trim).getD "Unknown"
    let price_step : Option ℚ :=
      match elem.priceText with
      | none => some 0
      | some t =>
        match extractElemPrice t with
        | none => some 0
        | some parsed => parsed
    match price_step with
    | none => none
    | some current_price =>
      some { product_id := product_id
             product_name := name
             current_price := current_price
             deal_type := deal_type
             product_url := some ("https://www.walmart.com/ip/" ++ product_id)
             image_url := some (elem.imgSrc.getD "") }

/-- scraper_module.py, `_parse_homedepot_html_element`: the attributes of the
HTML element that the parser reads. -/
structure HomeDepotHtmlElem where
  dataProductId : Option String
  dataItemId : Option String
  titleText : Option String
  priceText : Option String
  imgSrc : Option String

/-- scraper_module.py: `HomeDepotScraper._parse_homedepot_html_element`. -/
def parse_homedepot_html_element (elem : HomeDepotHtmlElem) (deal_type : String) : Option ScrapedItem :=
  let product_id_opt := pyOrStr elem.dataProductId elem.dataItemId
  if pyStrFalsy product_id_opt then none
  else
    let product_id := product_id_opt.getD ""
    let name := (elem.titleText.map String.trim).getD "Unknown"
    let price_step : Option ℚ :=
      match elem.priceText with
      | none => some 0
      | some t =>
        match extractElemPrice t with
        | none => some 0
        | some parsed => parsed
    match price_step with
    | none => none
    | some current_price =>
      some { product_id := product_id
             product_name := name
             current_price := current_price
             deal_type := deal_type
             product_url := some ("https://www.homedepot.com/p/" ++ product_id)
             image_url := some (elem.imgSrc.getD "") }

/-- api.py: the store dict fields that `process_store_inventory` reads. -/
structure StoreInfo where
  store_id : String
  retailer : String
  zip_code : String

/-- api.py: the per-search entry of `active_searches` plus the search-history
status that `run_full_search` maintains. -/
structure SearchState where
  status : String
  stores_found : ℕ
  items_scraped : ℕ
  opportunities_found : ℕ
  error : Option String

/-- api.py: the effectful operations `run_full_search` and
`process_store_inventory` perform, each modelled as an `Except` oracle so
that any call may raise. `item_step` is the body of the per-item `try`
(save the inventory item, check prices, save the opportunity). -/
structure ApiEnv where
  scrape_walmart_store : String → String → Except PyExc (List ScrapedItem)
  scrape_homedepot_store : String → String → Except PyExc (List ScrapedItem)
  save_store : StoreInfo → Except PyExc Unit
  item_step : StoreInfo → ScrapedItem → Except PyExc Unit
  update_status_running : Except PyExc Unit
  find_stores : Except PyExc (List (String × List StoreInfo))
  count_opportunities : Except PyExc ℕ
  update_status_completed : Except PyExc Unit

/-- api.py, `process_store_inventory` lines 178-216: the per-item loop; each
iteration runs inside its own `try`, a raise is logged and the loop
continues with the next item (`items_scraped` is incremented only at the end
of a successful iteration). -/
def processItemLoop (env : ApiEnv) (store : StoreInfo) :
    List ScrapedItem → SearchState → SearchState
  | [], st => st
  | item :: rest, st =>
    match env.item_step store item with
    | .ok _ => processItemLoop env store rest { st with items_scraped := st.items_scraped + 1 }
    | .error _ => processItemLoop env store rest st

/-- api.py: `process_store_inventory` — the whole body runs inside a `try`
whose handler only logs, so a scrape or store-save raise leaves the state
unchanged and control returns to the caller normally. -/
def process_store_inventory (env : ApiEnv) (store : StoreInfo) (st : SearchState) : SearchState :=
  let scraped : Option (Except PyExc (List ScrapedItem)) :=
    if store.retailer = "walmart" then some (env.scrape_walmart_store store.store_id store.zip_code)
    else if store.retailer = "homedepot" then some (env.scrape_homedepot_store store.store_id store.zip_code)
    else none
  match scraped with
  | none => st
  | some (.error _) => st
  | some (.ok items) =>
    match env.save_store store with
    | .error _ => st
    | .ok _ => processItemLoop env store items st

/-- api.py: `run_full_search` — orchestrator-level raises (status updates,
store locator, opportunity count) hit the outer `except` and set the status
to failed; per-store work is delegated to `process_store_inventory`. -/
def run_full_search (env : ApiEnv) (retailers : List String) (st0 : SearchState) : SearchState :=
  let st1 := { st0 with status := "running" }
  match env.update_status_running with
  | .error e => { st1 with status := "failed", error := some e }
  | .ok _ =>
    match env.find_stores with
    | .error e => { st1 with status := "failed", error := some e }
    | .ok all_stores =>
      let stores_to_process := retailers.foldl (fun acc r => acc ++ ((all_stores.lookup r).getD [])) []
      let st2 := { st1 with stores_found := stores_to_process.length }
      let st3 := stores_to_process.foldl (fun s store => process_store_inventory env store s) st2
      match env.count_opportunities with
      | .error e => { st3 with status := "failed", error := some e }
      | .ok n =>
        let st4 := { st3 with opportunities_found := n, status := "completed" }
        match env.update_status_completed with
        | .error e => { st4 with status := "failed", error := some e }
        | .ok _ => st4

/-- Specification-side scoring formula of the claim text: profit dollars on a
per-0.50 scale capped at 40, margin halved capped at 30, ROI divided by 3
capped at 30, sum clamped to 100. Written from the claim wording, to be
compared with `ProfitCalculator.calculate_opportunity_score`. -/
def opportunity_score_spec (net_profit profit_margin roi_percent : ℚ) : ℚ :=
  min (min (net_profit / 0.5) 40 + min (profit_margin / 2) 30 + min (roi_percent / 3) 30) 100

/-! ## General lemmas about the rounding model -/

theorem round2_le (x : ℚ) : round2 x ≤ x + 1 / 200 := by
  have h := abs_sub_round (x * 100)
  rw [abs_le] at h
  unfold round2
  have h1 := h.2
  linarith

theorem le_round2 (x : ℚ) : x - 1 / 200 ≤ round2 x := by
  have h := abs_sub_round (x * 100)
  rw [abs_le] at h
  unfold round2
  have h1 := h.1
  linarith

theorem round2_nonneg (x : ℚ) (hx : 0 ≤ x) : 0 ≤ round2 x := by
  unfold round2
  rw [round_eq]
  have hf : (0 : ℤ) ≤ ⌊x * 100 + 1 / 2⌋ := Int.floor_nonneg.mpr (by linarith)
  have : (0 : ℚ) ≤ (⌊x * 100 + 1 / 2⌋ : ℚ) := by exact_mod_cast hf
  linarith

theorem estimate_fba_fee_ge (p : ℚ) : 3.22 ≤ ProfitCalculator.estimate_fba_fee p := by
  unfold ProfitCalculator.estimate_fba_fee
  split_ifs <;> norm_num

theorem pyLower_amazon : pyLower "amazon" = "amazon" := rfl

theorem pyLower_ebay : pyLower "ebay" = "ebay" := rfl

theorem ebay_fees_total_eq (p : ℚ) :
    ((ProfitCalculator.calculate_ebay_fees p).lookup "total_fees").getD 0 =
      round2 (p * PROFIT_CONFIG.EBAY_FEE_PERCENT +
        (p * PROFIT_CONFIG.PAYPAL_FEE_PERCENT + PROFIT_CONFIG.PAYPAL_FEE_FIXED) + 0.0) := by
  simp [ProfitCalculator.calculate_ebay_fees, List.lookup]

theorem calculate_profit_amazon_raises (self : ProfitCalculator) (b s : ℚ) (cat : String)
    (i : Bool) :
    self.calculate_profit b s "amazon" cat i =
      Except.error "AttributeError: ProfitConfig object has no attribute CATEGORY_MARGINS" := rfl

theorem calculate_profit_ebay_eq (self : ProfitCalculator) (b s : ℚ) (cat : String) (i : Bool) :
    self.calculate_profit b s "ebay" cat i =
      Except.ok (self.calculate_profit_with_fees b s "ebay"
        (ProfitCalculator.calculate_ebay_fees s) i) := rfl

theorem calculate_profit_with_fees_net (self : ProfitCalculator) (b s : ℚ) (m : String)
    (fees : List (String × ℚ)) (i : Bool) :
    (self.calculate_profit_with_fees b s m fees i).net_profit =
      round2 (self.net_profit_given_fees b s fees i) := rfl

theorem calculate_profit_with_fees_gate (self : ProfitCalculator) (b s : ℚ) (m : String)
    (fees : List (String × ℚ)) (i : Bool) :
    (self.calculate_profit_with_fees b s m fees i).is_profitable =
      (decide (self.min_profit_amount ≤ self.net_profit_given_fees b s fees i) &&
       decide (self.min_profit_margin * 100 ≤ self.profit_margin_given_fees b s fees i)) := rfl

/-! ## Claim theorems -/

/-- C3 counterexample: the opportunity score is not clamped below at 0 — at
net profit −100, margin −100 and ROI −100 the computed score is negative,
so the score does not always lie in the interval from 0 to 100. -/
theorem C3_counterexample :
    ProfitCalculator.calculate_opportunity_score (-100) (-100) (-100) < 0 := by
  norm_num [ProfitCalculator.calculate_opportunity_score, min_def]

/-- C3 (amended): the opportunity score is monotonically non-decreasing in
each of net profit, profit margin and ROI independently, and is always at
most 100; it is not clamped below, so it can be negative. -/
theorem C3_score_monotone_bounded_above (np1 np2 m1 m2 r1 r2 : ℚ) :
    (np1 ≤ np2 → ProfitCalculator.calculate_opportunity_score np1 m1 r1 ≤
      ProfitCalculator.calculate_opportunity_score np2 m1 r1) ∧
    (m1 ≤ m2 → ProfitCalculator.calculate_opportunity_score np1 m1 r1 ≤
      ProfitCalculator.calculate_opportunity_score np1 m2 r1) ∧
    (r1 ≤ r2 → ProfitCalculator.calculate_opportunity_score np1 m1 r1 ≤
      ProfitCalculator.calculate_opportunity_score np1 m1 r2) ∧
    ProfitCalculator.calculate_opportunity_score np1 m1 r1 ≤ 100 := by
  refine ⟨fun h => ?_, fun h => ?_, fun h => ?_, ?_⟩ <;>
    simp only [ProfitCalculator.calculate_opportunity_score]
  · gcongr
  · gcongr
  · gcongr
  · exact min_le_right _ _

/-- C3 witness: the amended monotonicity and upper bound at concrete inputs. -/
theorem C3_score_monotone_bounded_above_witness :
    ProfitCalculator.calculate_opportunity_score 0 0 0 ≤
      ProfitCalculator.calculate_opportunity_score 1 0 0 ∧
    ProfitCalculator.calculate_opportunity_score 0 0 0 ≤ 100 :=
  ⟨(C3_score_monotone_bounded_above 0 1 0 0 0 0).1 (by norm_num),
   (C3_score_monotone_bounded_above 0 0 0 0 0 0).2.2.2⟩

/-- C4: evaluating the score at net profit 20 dollars (margin and ROI zero)
gives 1 point in the code (`min(net_profit / 20, 40)`), while the claimed
per-0.50-dollar scale capped at 40 gives 40 points; the code contradicts its
own comment, which says 40 points are reached at a 20-dollar profit. -/
theorem C4_profit_component_mismatch :
    ProfitCalculator.calculate_opportunity_score 20 0 0 = 1 ∧
    opportunity_score_spec 20 0 0 = 40 := by
  constructor <;>
    norm_num [ProfitCalculator.calculate_opportunity_score, opportunity_score_spec, min_def]

/-- C9 counterexample: the discount value returned is not always strictly
positive — a one-cent reduction on a 100000-dollar original price rounds to
a discount of exactly 0.00. -/
theorem C9_counterexample : calculate_discount_percent 100000 99999.99 = some 0 := by
  norm_num [calculate_discount_percent, round2, round_eq]

/-- C9 (amended): `calculate_discount_percent` returns a value iff the
original price is positive and above the current price, the value is the
percentage formula rounded to two decimals and is non-negative (rounding can
make it exactly 0); `calculate_discount_percent 100 75 = 25.00` and
`calculate_discount_percent 50 60` is absent. -/
theorem C9_discount_gate :
    (∀ original current : ℚ,
      ((calculate_discount_percent original current).isSome = true ↔
        (0 < original ∧ current < original)) ∧
      (∀ d, calculate_discount_percent original current = some d →
        d = round2 ((original - current) / original * 100) ∧ 0 ≤ d)) ∧
    calculate_discount_percent 100 75 = some 25 ∧
    calculate_discount_percent 50 60 = none := by
  refine ⟨fun original current => ⟨?_, fun d hd => ?_⟩, ?_, ?_⟩
  · unfold calculate_discount_percent
    split_ifs with h
    · simp only [Option.isSome_none]
      constructor
      · intro hfalse; cases hfalse
      · rintro ⟨h1, h2⟩
        rcases h with h | h | h <;> linarith
    · push_neg at h
      simp only [Option.isSome_some, true_iff]
      exact ⟨h.2.1, h.2.2⟩
  · unfold calculate_discount_percent at hd
    split_ifs at hd with h
    · push_neg at h
      have hdq : round2 ((original - current) / original * 100) = d := Option.some.inj hd
      refine ⟨hdq.symm, ?_⟩
      rw [← hdq]
      apply round2_nonneg
      have h1 : 0 < original := h.2.1
      have h2 : current < original := h.2.2
      have : 0 ≤ (original - current) / original :=
        div_nonneg (by linarith) (by linarith)
      linarith
  · norm_num [calculate_discount_percent, round2, round_eq]
  · norm_num [calculate_discount_percent]

/-- C9 witness: the amended gate at the concrete prices 4 and 3. -/
theorem C9_discount_gate_witness : (calculate_discount_percent 4 3).isSome = true :=
  (C9_discount_gate.1 4 3).1.mpr ⟨by norm_num, by norm_num⟩

/-- C10: `fuzzy_match_products` is symmetric, always lies in the closed
interval from 0 to 1, and equals 1 whenever the two names have the same
non-empty lowercased word set. -/
theorem C10_fuzzy_match_properties (a b : String) :
    fuzzy_match_products a b = fuzzy_match_products b a ∧
    0 ≤ fuzzy_match_products a b ∧
    fuzzy_match_products a b ≤ 1 ∧
    (pyWordSet a = pyWordSet b → pyWordSet a ≠ ∅ → fuzzy_match_products a b = 1) := by
  refine ⟨?_, ?_, ?_, fun heq hne => ?_⟩
  · by_cases h1 : pyWordSet a = ∅ <;> by_cases h2 : pyWordSet b = ∅ <;>
      simp [fuzzy_match_products, h1, h2, Finset.inter_comm, Finset.union_comm]
  · simp only [fuzzy_match_products]
    split_ifs with h
    · exact le_refl 0
    · positivity
  · simp only [fuzzy_match_products]
    split_ifs with h
    · norm_num
    · push_neg at h
      apply div_le_one_of_le₀
      · exact_mod_cast Finset.card_le_card
          (Finset.inter_subset_left.trans Finset.subset_union_left)
      · positivity
  · simp only [fuzzy_match_products]
    rw [heq]
    split_ifs with h
    · exact absurd (heq ▸ h.elim id id) hne
    · rw [Finset.inter_self, Finset.union_self]
      apply div_self
      have : (pyWordSet b).Nonempty := Finset.nonempty_iff_ne_empty.mpr (heq ▸ hne)
      exact_mod_cast Finset.card_ne_zero_of_mem this.choose_spec

/-- C10 witness: two names with the same word set up to case and order match
with score 1. -/
theorem C10_fuzzy_match_properties_witness :
    fuzzy_match_products "Red Chair" "chair red" = 1 :=
  (C10_fuzzy_match_properties "Red Chair" "chair red").2.2.2 (by decide) (by decide)

/-- C6: the program cannot produce the claimed scenario values —
`calculate_profit(10, 25, "amazon", "Other")` raises `AttributeError` at
profit_calculator.py line 91 (`ProfitConfig` has no `CATEGORY_MARGINS`
attribute) and returns nothing; the claimed numbers (total buy cost 10.80,
referral fee 3.75, fulfillment fee 5.50, total fees 9.25, shipping 5.00,
net profit −0.05, below the profitability threshold) are exactly what the
arithmetic after the broken lookup would produce, so the spec records the
intent and the attribute access is the slip. -/
theorem C6_default_scenario_raises :
    (mkProfitCalculator none none none none).calculate_profit 10 25 "amazon" "Other" true =
      Except.error "AttributeError: ProfitConfig object has no attribute CATEGORY_MARGINS" ∧
    round2 (10 + 10 * PROFIT_CONFIG.DEFAULT_SALES_TAX) = 10.80 ∧
    (25 : ℚ) * ((CATEGORY_MARGINS.lookup "Other").getD PROFIT_CONFIG.AMAZON_FEE_PERCENT) = 3.75 ∧
    ProfitCalculator.estimate_fba_fee 25 = 5.50 ∧
    round2 ((25 : ℚ) * ((CATEGORY_MARGINS.lookup "Other").getD PROFIT_CONFIG.AMAZON_FEE_PERCENT) +
      ProfitCalculator.estimate_fba_fee 25 + 0.0) = 9.25 ∧
    round2 ((25 : ℚ) - (10.80 + (9.25 + PROFIT_CONFIG.DEFAULT_SHIPPING_COST))) = -0.05 ∧
    (-0.05 : ℚ) < PROFIT_CONFIG.MIN_PROFIT_AMOUNT := by
  refine ⟨calculate_profit_amazon_raises _ _ _ _ _, ?_, ?_, ?_, ?_, ?_, ?_⟩
  all_goals try simp [round2, PROFIT_CONFIG.DEFAULT_SALES_TAX,
    PROFIT_CONFIG.DEFAULT_SHIPPING_COST, PROFIT_CONFIG.AMAZON_FEE_PERCENT,
    PROFIT_CONFIG.MIN_PROFIT_AMOUNT, CATEGORY_MARGINS,
    ProfitCalculator.estimate_fba_fee, List.lookup]
  all_goals norm_num [round_eq]

/-- C7: for every non-negative price p, selling at cost on the ebay fee model
yields a non-positive net profit, but for the amazon fee model the program
yields no net profit at all — `calculate_profit` raises `AttributeError` at
profit_calculator.py line 91 before computing anything, so the property
cannot hold of both marketplaces as the claim states. -/
theorem C7_sell_at_cost_amazon_raises_ebay_nonpositive (p : ℚ) (hp : 0 ≤ p) :
    (mkProfitCalculator none none none none).calculate_profit p p "amazon" "Other" true =
      Except.error "AttributeError: ProfitConfig object has no attribute CATEGORY_MARGINS" ∧
    ∀ analysis, (mkProfitCalculator none none none none).calculate_profit p p "ebay" "Other" true =
      Except.ok analysis → analysis.net_profit ≤ 0 := by
  refine ⟨calculate_profit_amazon_raises _ _ _ _ _, fun analysis h => ?_⟩
  rw [calculate_profit_ebay_eq] at h
  obtain rfl := Except.ok.inj h
  rw [calculate_profit_with_fees_net]
  have hraw : (mkProfitCalculator none none none none).net_profit_given_fees p p
      (ProfitCalculator.calculate_ebay_fees p) true
      = p - (round2 (p + p * 0.08) +
          round2 (p * 0.13 + (p * 0.029 + 0.30) + 0.0) + 5) := by
    simp [ProfitCalculator.net_profit_given_fees, ProfitCalculator.calculate_buy_cost,
      mkProfitCalculator, pyOrQ, ebay_fees_total_eq,
      PROFIT_CONFIG.DEFAULT_SALES_TAX, PROFIT_CONFIG.DEFAULT_SHIPPING_COST,
      PROFIT_CONFIG.EBAY_FEE_PERCENT, PROFIT_CONFIG.PAYPAL_FEE_PERCENT,
      PROFIT_CONFIG.PAYPAL_FEE_FIXED]
    norm_num
  rw [hraw]
  have h2 := le_round2 (p + p * 0.08)
  have h3 := le_round2 (p * 0.13 + (p * 0.029 + 0.30) + 0.0)
  have h5 := round2_le (p - (round2 (p + p * 0.08) +
    round2 (p * 0.13 + (p * 0.029 + 0.30) + 0.0) + 5))
  norm_num at h2 h3 h5 ⊢
  linarith

/-- C7 witness: at the concrete price 3 the ebay analysis the program
computes has a non-positive net profit. -/
theorem C7_sell_at_cost_amazon_raises_ebay_nonpositive_witness :
    ((mkProfitCalculator none none none none).calculate_profit_with_fees 3 3 "ebay"
      (ProfitCalculator.calculate_ebay_fees 3) true).net_profit ≤ 0 :=
  (C7_sell_at_cost_amazon_raises_ebay_nonpositive 3 (by norm_num)).2 _ rfl

/-- C1: with an amazon candidate supplied, `find_best_marketplace` raises
`AttributeError` while computing the amazon fees (profit_calculator.py line
91) and returns no `ProfitAnalysis` at all, contrary to the claimed
never-`None` selection; with only an ebay candidate it does return that sole
candidate (net profit 0.72 at sell price 20, not profitable), so the
min/max selection over several candidates is unreachable. -/
theorem C1_amazon_candidate_crashes :
    (mkProfitCalculator none none none none).find_best_marketplace 10 (some 20) (some 20) "Other" =
      Except.error "AttributeError: ProfitConfig object has no attribute CATEGORY_MARGINS" ∧
    ((mkProfitCalculator none none none none).find_best_marketplace 10 none (some 20) "Other").map
      (Option.map ProfitAnalysis.net_profit) = Except.ok (some 0.72) ∧
    ((mkProfitCalculator none none none none).calculate_profit 10 20 "ebay" "Other" true).map
      ProfitAnalysis.is_profitable = Except.ok false := by
  have hnet : (mkProfitCalculator none none none none).net_profit_given_fees 10 20
      (ProfitCalculator.calculate_ebay_fees 20) true = 0.72 := by
    simp [ProfitCalculator.net_profit_given_fees, ProfitCalculator.calculate_buy_cost,
      mkProfitCalculator, pyOrQ, ProfitCalculator.calculate_ebay_fees, List.lookup,
      PROFIT_CONFIG.DEFAULT_SALES_TAX, PROFIT_CONFIG.DEFAULT_SHIPPING_COST,
      PROFIT_CONFIG.EBAY_FEE_PERCENT, PROFIT_CONFIG.PAYPAL_FEE_PERCENT,
      PROFIT_CONFIG.PAYPAL_FEE_FIXED, round2]
    norm_num [round_eq]
  have hprof : ((mkProfitCalculator none none none none).calculate_profit_with_fees 10 20 "ebay"
      (ProfitCalculator.calculate_ebay_fees 20) true).is_profitable = false := by
    rw [calculate_profit_with_fees_gate]
    simp only [Bool.and_eq_false_iff, decide_eq_false_iff_not, not_le]
    left
    rw [hnet]
    norm_num [mkProfitCalculator, pyOrQ, PROFIT_CONFIG.MIN_PROFIT_AMOUNT]
  refine ⟨rfl, ?_, ?_⟩
  · simp [ProfitCalculator.find_best_marketplace, ProfitCalculator.compare_marketplaces,
      calculate_profit_ebay_eq, Except.map, Except.bind, bind, hprof, pyMinBy,
      List.filter, List.isEmpty, calculate_profit_with_fees_net, hnet]
    norm_num [round2, round_eq]
  · rw [calculate_profit_ebay_eq]
    simp [Except.map, hprof]

/-- C5 counterexample: caller-supplied zero thresholds are silently replaced
by the hardcoded defaults — with thresholds (0, 0) supplied, buying at 10
and selling at 24 on ebay yields a pre-rounding net profit of 4.08 and a
margin of 17 percent (both at least 0), yet the analysis the program
computes has `is_profitable = false`, because the gate compares against the
default 5.00 minimum profit instead of the supplied 0. -/
theorem C5_zero_thresholds_replaced :
    ((mkProfitCalculator none none (some 0) (some 0)).calculate_profit 10 24 "ebay" "Other" true).map
      ProfitAnalysis.is_profitable = Except.ok false ∧
    (mkProfitCalculator none none (some 0) (some 0)).net_profit_given_fees 10 24
      (ProfitCalculator.calculate_ebay_fees 24) true = 4.08 ∧
    (mkProfitCalculator none none (some 0) (some 0)).profit_margin_given_fees 10 24
      (ProfitCalculator.calculate_ebay_fees 24) true = 17 := by
  have hnet : (mkProfitCalculator none none (some 0) (some 0)).net_profit_given_fees 10 24
      (ProfitCalculator.calculate_ebay_fees 24) true = 4.08 := by
    simp [ProfitCalculator.net_profit_given_fees, ProfitCalculator.calculate_buy_cost,
      mkProfitCalculator, pyOrQ, ProfitCalculator.calculate_ebay_fees, List.lookup,
      PROFIT_CONFIG.DEFAULT_SALES_TAX, PROFIT_CONFIG.DEFAULT_SHIPPING_COST,
      PROFIT_CONFIG.EBAY_FEE_PERCENT, PROFIT_CONFIG.PAYPAL_FEE_PERCENT,
      PROFIT_CONFIG.PAYPAL_FEE_FIXED, round2]
    norm_num [round_eq]
  have hmargin : (mkProfitCalculator none none (some 0) (some 0)).profit_margin_given_fees 10 24
      (ProfitCalculator.calculate_ebay_fees 24) true = 17 := by
    rw [ProfitCalculator.profit_margin_given_fees, if_pos (by norm_num), hnet]
    norm_num
  refine ⟨?_, hnet, hmargin⟩
  rw [calculate_profit_ebay_eq]
  have hprof : ((mkProfitCalculator none none (some 0) (some 0)).calculate_profit_with_fees 10 24
      "ebay" (ProfitCalculator.calculate_ebay_fees 24) true).is_profitable = false := by
    rw [calculate_profit_with_fees_gate]
    simp only [Bool.and_eq_false_iff, decide_eq_false_iff_not, not_le]
    left
    rw [hnet]
    norm_num [mkProfitCalculator, pyOrQ, PROFIT_CONFIG.MIN_PROFIT_AMOUNT]
  simp [Except.map, hprof]

/-- C5 (amended): `is_profitable` is true iff net profit meets the effective
minimum-profit threshold and margin meets 100 times the effective
minimum-margin threshold, where each effective threshold is the
caller-supplied value when that value is non-zero and the hardcoded
`PROFIT_CONFIG` default when the caller supplies `None` or `0` (Python `or`
defaulting); stated for every marketplace fee dict the program computes. -/
theorem C5_gate_with_defaulted_thresholds (pa pm : Option ℚ) (buy sell : ℚ)
    (mkt : String) (fees : List (String × ℚ)) (inc : Bool) :
    ((mkProfitCalculator none none pa pm).calculate_profit_with_fees buy sell mkt fees inc).is_profitable = true ↔
      (pyOrQ pa PROFIT_CONFIG.MIN_PROFIT_AMOUNT ≤
        (mkProfitCalculator none none pa pm).net_profit_given_fees buy sell fees inc ∧
       pyOrQ pm PROFIT_CONFIG.MIN_PROFIT_MARGIN * 100 ≤
        (mkProfitCalculator none none pa pm).profit_margin_given_fees buy sell fees inc) := by
  rw [calculate_profit_with_fees_gate]
  simp [mkProfitCalculator]

/-- C5 witness: with non-zero caller thresholds 1.00 and 1 percent, the 10
to 24 ebay scenario the program executes is profitable — the gate uses the
supplied values. -/
theorem C5_gate_with_defaulted_thresholds_witness :
    ((mkProfitCalculator none none (some 1) (some 0.01)).calculate_profit 10 24 "ebay" "Other" true).map
      ProfitAnalysis.is_profitable = Except.ok true := by
  rw [calculate_profit_ebay_eq]
  have hnet : (mkProfitCalculator none none (some 1) (some 0.01)).net_profit_given_fees 10 24
      (ProfitCalculator.calculate_ebay_fees 24) true = 4.08 := by
    simp [ProfitCalculator.net_profit_given_fees, ProfitCalculator.calculate_buy_cost,
      mkProfitCalculator, pyOrQ, ProfitCalculator.calculate_ebay_fees, List.lookup,
      PROFIT_CONFIG.DEFAULT_SALES_TAX, PROFIT_CONFIG.DEFAULT_SHIPPING_COST,
      PROFIT_CONFIG.EBAY_FEE_PERCENT, PROFIT_CONFIG.PAYPAL_FEE_PERCENT,
      PROFIT_CONFIG.PAYPAL_FEE_FIXED, round2]
    norm_num [round_eq]
  have hprof : ((mkProfitCalculator none none (some 1) (some 0.01)).calculate_profit_with_fees 10 24
      "ebay" (ProfitCalculator.calculate_ebay_fees 24) true).is_profitable = true :=
    (C5_gate_with_defaulted_thresholds (some 1) (some 0.01) 10 24 "ebay"
      (ProfitCalculator.calculate_ebay_fees 24) true).mpr
      ⟨by rw [hnet]; norm_num [pyOrQ],
       by rw [ProfitCalculator.profit_margin_given_fees, if_pos (by norm_num), hnet]
          norm_num [pyOrQ]⟩
  simp [Except.map, hprof]

/-- C2: when the orchestrator-level operations succeed (status updates, the
store locator and the opportunity count), the search always ends with status
completed, whatever the per-store scrapes, store saves and per-item steps do
— any of them may raise and the raise is absorbed without failing the
search or stopping sibling processing. -/
theorem C2_store_item_failures_isolated (env : ApiEnv) (retailers : List String)
    (st0 : SearchState)
    (h1 : env.update_status_running = Except.ok ())
    (h2 : ∃ stores, env.find_stores = Except.ok stores)
    (h3 : ∃ n, env.count_opportunities = Except.ok n)
    (h4 : env.update_status_completed = Except.ok ()) :
    (run_full_search env retailers st0).status = "completed" := by
  obtain ⟨stores, hs⟩ := h2
  obtain ⟨n, hn⟩ := h3
  simp [run_full_search, h1, hs, hn, h4]

/-- Environment in which every per-store and per-item operation raises while
the orchestrator-level operations succeed. -/
def failingStoresEnv : ApiEnv where
  scrape_walmart_store := fun _ _ => Except.error "scrape raised"
  scrape_homedepot_store := fun _ _ => Except.error "scrape raised"
  save_store := fun _ => Except.error "db raised"
  item_step := fun _ _ => Except.error "item raised"
  update_status_running := Except.ok ()
  find_stores := Except.ok
    [("walmart", [{ store_id := "w1", retailer := "walmart", zip_code := "02134" }]),
     ("homedepot", [{ store_id := "h1", retailer := "homedepot", zip_code := "02134" }])]
  count_opportunities := Except.ok 0
  update_status_completed := Except.ok ()

/-- C2 witness: even when every store scrape, store save and item step
raises, the search completes. -/
theorem C2_store_item_failures_isolated_witness :
    (run_full_search failingStoresEnv ["walmart", "homedepot"]
      { status := "pending", stores_found := 0, items_scraped := 0,
        opportunities_found := 0, error := none }).status = "completed" :=
  C2_store_item_failures_isolated failingStoresEnv ["walmart", "homedepot"] _
    rfl ⟨_, rfl⟩ ⟨0, rfl⟩ rfl

/-- C8 counterexample: an HTML element with a product id but no price
element is not dropped — `_parse_walmart_html_element` emits the item with
`current_price = 0`, so not every emitted item carries a parsed price. -/
theorem C8_counterexample :
    (parse_walmart_html_element
      { dataItemId := some "12345", titleText := none, priceText := none, imgSrc := none }
      "Clearance").map ScrapedItem.current_price = some 0 := by
  decide

/-- C8 (amended): the JSON product parsers only emit items whose current
price parsed to a non-zero value (missing or falsy prices drop the item),
but the HTML element parsers emit the item with a placeholder price of 0
when the price element is missing. -/
theorem C8_parsers_price_policy :
    (∀ (product : WalmartProduct) (dt : String) (item : ScrapedItem),
      parse_walmart_product product dt = some item → item.current_price ≠ 0) ∧
    (∀ (product : HomeDepotProduct) (dt : String) (item : ScrapedItem),
      parse_homedepot_product product dt = some item → item.current_price ≠ 0) ∧
    (∀ (elem : WalmartHtmlElem) (dt : String),
      ¬ pyStrFalsy elem.dataItemId → elem.priceText = none →
      (parse_walmart_html_element elem dt).map ScrapedItem.current_price = some 0) ∧
    (∀ (elem : HomeDepotHtmlElem) (dt : String),
      ¬ pyStrFalsy (pyOrStr elem.dataProductId elem.dataItemId) → elem.priceText = none →
      (parse_homedepot_html_element elem dt).map ScrapedItem.current_price = some 0) := by
  refine ⟨fun product dt item h => ?_, fun product dt item h => ?_,
    fun elem dt h1 h2 => ?_, fun elem dt h1 h2 => ?_⟩
  · simp only [parse_walmart_product] at h
    split_ifs at h with hid hcp
    all_goals obtain rfl := Option.some.inj h
    all_goals simpa using hcp
  · simp only [parse_homedepot_product] at h
    split_ifs at h with hid hcp
    all_goals obtain rfl := Option.some.inj h
    all_goals simpa using hcp
  · simp [parse_walmart_html_element, h1, h2]
  · simp [parse_homedepot_html_element, h1, h2]

/-- C8 witness: the JSON-parser half at a product with a parsed price, and
the HTML-parser half at a price-less element. -/
theorem C8_parsers_price_policy_witness :
    ((parse_walmart_html_element
      { dataItemId := some "99", titleText := none, priceText := none, imgSrc := none }
      "Rollback").map ScrapedItem.current_price = some 0) :=
  C8_parsers_price_policy.2.2.1
    { dataItemId := some "99", titleText := none, priceText := none, imgSrc := none }
    "Rollback" (by decide) rfl
